import Mathlib

/-!
Shallow embedding of the acquisitions API's authentication and
admission-control pipeline (Node/Express service).

Embedded source files:
- src/utils/jwt.js        : `jwttoken.sign` / `jwttoken.verify` wrappers
  around the jsonwebtoken library;
- src/middleware/auth.middleware.js : `attachUserFromToken`,
  `requireAuth`, `requireRoles`;
- src/controllers/users.controller.js : `updateUser`, `deleteUser`
  controllers (authorization core, after schema validation);
- src/routes/users.routes.js : guard chain of the delete route;
- src/services/users.service.js : `updateUser` service over the user
  store;
- src/utils/cookies.js    : cookie option set, `clear` and `get`.

Times are in seconds (JWT `iat` and `exp` are second-resolution UNIX
timestamps); cookie `maxAge` is in milliseconds, as in Express.
-/

/-- Claims carried in a signed token payload: subject id, email and an
optional role string (the `role` key may be missing from the payload, and
an empty string is falsy in JS, so the role is an `Option String`). -/
structure Claims where
  id : Nat
  email : String
  role : Option String
deriving Repr, DecidableEq

/-- Model of a compact signed token as handled by the jsonwebtoken
library: the embedded payload, issue and expiry timestamps (seconds), the
secret the signature was produced with, and whether the token's structure
is intact (`wellFormed = false` models a corrupted/truncated token whose
decoding fails). -/
structure Token where
  payload : Claims
  iat : Nat
  exp : Nat
  secret : String
  wellFormed : Bool
deriving Repr, DecidableEq

/-- Failure kinds of the underlying jsonwebtoken library:
`TokenExpiredError` (expired) and `JsonWebTokenError`
(malformed structure or invalid signature). -/
inductive JwtError where
  | expired
  | malformed
deriving Repr, DecidableEq

/-- Library-level `jwt.verify(token, secret)`: decodes the token
(malformed on structural damage), then checks the signature (malformed on
secret mismatch), then the expiry: `TokenExpiredError` exactly when the
clock has reached `exp`. On success it returns the decoded payload. -/
def jwtVerify (t : Token) (secret : String) (now : Nat) : Except JwtError Claims :=
  if t.wellFormed = false then .error .malformed
  else if t.secret ≠ secret then .error .malformed
  else if t.exp ≤ now then .error .expired
  else .ok t.payload

/-- Library-level `jwt.sign(payload, secret, expiresIn)`: a fresh
well-formed token signed with `secret`, with `exp = now + expiresIn`. -/
def jwtSign (payload : Claims) (secret : String) (expiresIn : Nat) (now : Nat) : Token :=
  { payload := payload, iat := now, exp := now + expiresIn,
    secret := secret, wellFormed := true }

/-- src/utils/jwt.js: the process-wide signing secret
(`process.env.JWT_SECRET ||` this fallback constant). -/
def JWT_SECRET : String := "your-secret-key-please-change-in-production"

/-- src/utils/jwt.js: `JWT_EXPIRES_IN = '1d'`, one day in seconds. -/
def JWT_EXPIRES_IN_SECONDS : Nat := 86400

/-- src/utils/jwt.js `jwttoken.sign`: signs the payload with
`JWT_SECRET` and a 1-day expiry. -/
def jwttoken.sign (payload : Claims) (now : Nat) : Token :=
  jwtSign payload JWT_SECRET JWT_EXPIRES_IN_SECONDS now

/-- src/utils/jwt.js `jwttoken.verify`: wraps `jwt.verify` and, on ANY
failure (expired or malformed alike), catches the library error and
rethrows the single generic `new Error('failed to authenticate token')`. -/
def jwttoken.verify (t : Token) (now : Nat) : Except String Claims :=
  match jwtVerify t JWT_SECRET now with
  | .ok c => .ok c
  | .error _ => .error "failed to authenticate token"

/-- A concrete token signed with the right secret whose `exp` (one day
after issuance at time 0) is in the past at time 100000. -/
def expiredToken : Token :=
  { payload := { id := 7, email := "x@y.z", role := some "user" },
    iat := 0, exp := 86400, secret := JWT_SECRET, wellFormed := true }

/-- A concrete structurally damaged token. -/
def malformedToken : Token :=
  { payload := { id := 7, email := "x@y.z", role := some "user" },
    iat := 0, exp := 999999999, secret := JWT_SECRET, wellFormed := false }

/-- C2: verifying a token produced by `sign` before its expiry returns
the embedded claims unchanged: `jwttoken.verify` composed with
`jwttoken.sign` is the identity on the payload. -/
theorem verify_sign_roundtrip (c : Claims) (issuedAt now : Nat)
    (h : now < issuedAt + JWT_EXPIRES_IN_SECONDS) :
    jwttoken.verify (jwttoken.sign c issuedAt) now = .ok c := by
  have h' : ¬ (issuedAt + JWT_EXPIRES_IN_SECONDS ≤ now) := by omega
  simp [jwttoken.verify, jwttoken.sign, jwtSign, jwtVerify, h']

/-- Witness for C2 at a concrete identity and concrete times. -/
theorem verify_sign_roundtrip_witness :
    (10 : Nat) < 0 + JWT_EXPIRES_IN_SECONDS ∧
    jwttoken.verify (jwttoken.sign { id := 1, email := "a@b.c", role := some "admin" } 0) 10 =
      .ok { id := 1, email := "a@b.c", role := some "admin" } :=
  ⟨by decide, verify_sign_roundtrip { id := 1, email := "a@b.c", role := some "admin" } 0 10 (by decide)⟩

/-- C3 counterexample: an expired, correctly signed token and a malformed
token produce the very same result from `jwttoken.verify` — the wrapper
collapses every library failure into the one generic error
'failed to authenticate token', so the Expired and Malformed kinds are
NOT distinguishable in `verify`'s result. -/
theorem expired_vs_malformed_counterexample :
    jwttoken.verify expiredToken 100000 = .error "failed to authenticate token" ∧
    jwttoken.verify malformedToken 100000 = .error "failed to authenticate token" ∧
    jwttoken.verify expiredToken 100000 = jwttoken.verify malformedToken 100000 :=
  ⟨by rfl, by rfl, by rfl⟩

/-- C3 amended: a well-formed, correctly signed token whose `exp` has
passed is recognised as `expired` (never `malformed`) by the underlying
library check, but `jwttoken.verify` surfaces it only as the generic
error 'failed to authenticate token' — identical to what any malformed
token produces, so the two kinds are indistinguishable in the wrapper's
result. -/
theorem expired_token_generic_error (t : Token) (now : Nat)
    (hw : t.wellFormed = true) (hs : t.secret = JWT_SECRET) (he : t.exp ≤ now) :
    jwtVerify t JWT_SECRET now = .error .expired ∧
    jwttoken.verify t now = .error "failed to authenticate token" ∧
    ∀ t2 : Token, t2.wellFormed = false →
      jwttoken.verify t2 now = jwttoken.verify t now := by
  have hv : jwtVerify t JWT_SECRET now = .error .expired := by
    simp [jwtVerify, hw, hs, he]
  refine ⟨hv, ?_, ?_⟩
  · simp [jwttoken.verify, hv]
  · intro t2 h2
    have hv2 : jwtVerify t2 JWT_SECRET now = .error .malformed := by
      simp [jwtVerify, h2]
    simp [jwttoken.verify, hv, hv2]

/-- Witness for the amended C3 at the concrete expired token. -/
theorem expired_token_generic_error_witness :
    (expiredToken.wellFormed = true ∧ expiredToken.secret = JWT_SECRET ∧
      expiredToken.exp ≤ 100000) ∧
    jwtVerify expiredToken JWT_SECRET 100000 = .error .expired :=
  ⟨⟨by decide, by decide, by decide⟩,
    (expired_token_generic_error expiredToken 100000 (by decide) (by decide) (by decide)).1⟩

/-- The identity shape normalised onto `req.user` by the middleware:
`{ id, email, role }` with `role` always a concrete string. -/
structure UserView where
  id : Nat
  email : String
  role : String
deriving Repr, DecidableEq

/-- An incoming request as the auth middleware sees it:
`req.cookies?.token` is either absent (no cookie jar, or no `token`
entry — JS sees `undefined` in both cases) or a token value. -/
structure Request where
  cookieToken : Option Token
deriving Repr, DecidableEq

/-- What the `attachUserFromToken` middleware leaves behind: the
(possibly absent) `req.user`, and whether it passed the request on by
calling `next()` (as opposed to failing the request). -/
structure MiddlewareOut where
  user : Option UserView
  nextCalled : Bool
deriving Repr, DecidableEq

/-- JS `decoded.role || 'user'`: the fallback applies when the role claim
is absent or falsy (the empty string). -/
def jsRoleOr (r : Option String) (fallback : String) : String :=
  match r with
  | none => fallback
  | some s => if s = "" then fallback else s

/-- src/middleware/auth.middleware.js `attachUserFromToken`: no cookie
token means guest (`req.user = undefined`, `next()`); a present token is
verified, a success attaches the normalised user with
`role: decoded.role || 'user'`, and ANY verification failure is caught,
logged, and downgraded to guest (`req.user = undefined`, `next()`). The
middleware never fails the request. -/
def attachUserFromToken (req : Request) (now : Nat) : MiddlewareOut :=
  match req.cookieToken with
  | none => { user := none, nextCalled := true }
  | some t =>
    match jwttoken.verify t now with
    | .ok decoded =>
      { user := some { id := decoded.id, email := decoded.email,
                       role := jsRoleOr decoded.role "user" },
        nextCalled := true }
    | .error _ => { user := none, nextCalled := true }

/-- Outcome of a route-level guard: pass through to the next handler, or
answer immediately with an HTTP status and error message. -/
inductive GuardOutcome where
  | next
  | status (code : Nat) (error : String)
deriving Repr, DecidableEq

/-- src/middleware/auth.middleware.js `requireAuth`: 401 when no user is
attached, otherwise pass through. -/
def requireAuth (user : Option UserView) : GuardOutcome :=
  match user with
  | none => .status 401 "Authentication required"
  | some _ => .next

/-- src/middleware/auth.middleware.js `requireRoles(...allowedRoles)`:
401 when no user is attached, 403 when the attached role is not in the
allowed set, otherwise pass through. -/
def requireRoles (allowedRoles : List String) (user : Option UserView) : GuardOutcome :=
  match user with
  | none => .status 401 "Authentication required"
  | some u =>
    if u.role ∈ allowedRoles then .next
    else .status 403 "Forbidden: insufficient permissions"

/-- A concrete token signed with a wrong secret: its verification fails. -/
def wrongSecretToken : Token :=
  { payload := { id := 3, email := "c@d.e", role := some "admin" },
    iat := 0, exp := 999999999, secret := "some-other-secret", wellFormed := true }

/-- C1: whether the session cookie is absent, or present but failing
verification for any reason, `attachUserFromToken` attaches no identity
and calls `next()` without error, and the two cases are indistinguishable
to the downstream guards: `requireAuth` and every `requireRoles` respond
identically to both. -/
theorem absent_and_invalid_cookie_indistinguishable
    (req1 req2 : Request) (now1 now2 : Nat) (t : Token)
    (h1 : req1.cookieToken = none)
    (h2 : req2.cookieToken = some t)
    (h3 : (jwttoken.verify t now2).isOk = false) :
    (attachUserFromToken req1 now1).user = none ∧
    (attachUserFromToken req2 now2).user = none ∧
    (attachUserFromToken req1 now1).nextCalled = true ∧
    (attachUserFromToken req2 now2).nextCalled = true ∧
    requireAuth (attachUserFromToken req1 now1).user =
      requireAuth (attachUserFromToken req2 now2).user ∧
    ∀ roles : List String,
      requireRoles roles (attachUserFromToken req1 now1).user =
        requireRoles roles (attachUserFromToken req2 now2).user := by
  have e1 : attachUserFromToken req1 now1 = { user := none, nextCalled := true } := by
    simp [attachUserFromToken, h1]
  have e2 : attachUserFromToken req2 now2 = { user := none, nextCalled := true } := by
    cases hvv : jwttoken.verify t now2 with
    | ok c => rw [hvv] at h3; simp [Except.isOk, Except.toBool] at h3
    | error e => simp [attachUserFromToken, h2, hvv]
  rw [e1, e2]
  exact ⟨rfl, rfl, rfl, rfl, rfl, fun _ => rfl⟩

/-- Witness for C1: a cookieless request and a request carrying a token
signed with the wrong secret. -/
theorem absent_and_invalid_cookie_indistinguishable_witness :
    ((Request.mk none).cookieToken = none ∧
      (Request.mk (some wrongSecretToken)).cookieToken = some wrongSecretToken ∧
      (jwttoken.verify wrongSecretToken 5).isOk = false) ∧
    (attachUserFromToken (Request.mk none) 5).user = none ∧
    (attachUserFromToken (Request.mk (some wrongSecretToken)) 5).user = none :=
  ⟨⟨rfl, rfl, by rfl⟩,
    (absent_and_invalid_cookie_indistinguishable (Request.mk none)
      (Request.mk (some wrongSecretToken)) 5 5 wrongSecretToken rfl rfl (by rfl)).1,
    (absent_and_invalid_cookie_indistinguishable (Request.mk none)
      (Request.mk (some wrongSecretToken)) 5 5 wrongSecretToken rfl rfl (by rfl)).2.1⟩

/-- C9: a validly signed token whose payload has no role claim (or a
falsy, empty-string role) is attached with role 'user' — not guest: the
request carries an authenticated user identity with the 'user' role. -/
theorem roleless_token_defaults_to_user
    (req : Request) (now : Nat) (t : Token) (c : Claims)
    (hc : req.cookieToken = some t)
    (hv : jwttoken.verify t now = .ok c)
    (hr : c.role = none ∨ c.role = some "") :
    (attachUserFromToken req now).user =
      some { id := c.id, email := c.email, role := "user" } := by
  rcases hr with hr | hr <;> simp [attachUserFromToken, hc, hv, jsRoleOr, hr]

/-- Witness for C9: a token signed (with the real secret) over a payload
with no role claim, verified before expiry. -/
theorem roleless_token_defaults_to_user_witness :
    ((Request.mk (some (jwttoken.sign { id := 4, email := "d@e.f", role := none } 0))).cookieToken
        = some (jwttoken.sign { id := 4, email := "d@e.f", role := none } 0) ∧
      jwttoken.verify (jwttoken.sign { id := 4, email := "d@e.f", role := none } 0) 10 =
        .ok { id := 4, email := "d@e.f", role := none }) ∧
    (attachUserFromToken (Request.mk (some (jwttoken.sign { id := 4, email := "d@e.f", role := none } 0))) 10).user =
      some { id := 4, email := "d@e.f", role := "user" } :=
  ⟨⟨rfl, by rfl⟩,
    roleless_token_defaults_to_user _ 10 _ { id := 4, email := "d@e.f", role := none }
      rfl (by rfl) (Or.inl rfl)⟩

/-- Modelled from the spec: roles admitted by the request-body validation
layer (src/validations/users.validation.js is not under src). The spec's
data model fixes `role` as the closed enum of guest, user and admin, so a
validated role value is one of these non-empty strings. -/
inductive Role where
  | guest
  | user
  | admin
deriving Repr, DecidableEq

/-- The string a validated role value carries. -/
def Role.toStr : Role → String
  | .guest => "guest"
  | .user => "user"
  | .admin => "admin"

/-- An update request body after `updateUserSchema` validation: each of
the three updatable keys is present (`some`) or absent (`none`). Keys
outside this set never reach the service (the service only copies the
allowed fields anyway). -/
structure ValidatedUpdate where
  name : Option String
  email : Option String
  role : Option Role
deriving Repr, DecidableEq

/-- Outcome of a controller's authorization core: 401 when `req.user` is
absent, 403 with the controller's message, or proceed into the service
call. -/
inductive ControllerOutcome where
  | unauthenticated
  | forbidden (error : String)
  | proceed
deriving Repr, DecidableEq

/-- src/controllers/users.controller.js `updateUser`, after params/body
validation: 401 without `req.user`; 403 'Not authorized to update this
user' when the caller is neither the target nor an admin; 403 'Only admin
users can change roles' when the payload carries a (truthy) role field
and the caller is not admin; otherwise the service update proceeds. -/
def usersController.updateUser (user : Option UserView) (id : Nat)
    (updates : ValidatedUpdate) : ControllerOutcome :=
  match user with
  | none => .unauthenticated
  | some u =>
    if ¬ (u.id = id) ∧ ¬ (u.role = "admin") then
      .forbidden "Not authorized to update this user"
    else if updates.role.isSome ∧ ¬ (u.role = "admin") then
      .forbidden "Only admin users can change roles"
    else .proceed

/-- src/controllers/users.controller.js `deleteUser`, after params
validation: 401 without `req.user`; 403 when the caller is neither the
target nor an admin; otherwise the service delete proceeds. -/
def usersController.deleteUser (user : Option UserView) (id : Nat) : ControllerOutcome :=
  match user with
  | none => .unauthenticated
  | some u =>
    if ¬ (u.id = id) ∧ ¬ (u.role = "admin") then
      .forbidden "Not authorized to delete this user"
    else .proceed

/-- End-to-end outcome of a route: an HTTP error response produced by a
guard or the controller's authorization core, or the business/service
operation being reached. -/
inductive RouteResult where
  | response (code : Nat) (error : String)
  | serviceCall
deriving Repr, DecidableEq

/-- Mapping a controller outcome onto the HTTP-observable result. -/
def controllerToResult : ControllerOutcome → RouteResult
  | .unauthenticated => .response 401 "Authentication required"
  | .forbidden e => .response 403 e
  | .proceed => .serviceCall

/-- src/routes/users.routes.js `router.put('/:id', requireAuth,
updateUser)`: the auth guard runs first, then the controller. -/
def usersRoutes.putById (user : Option UserView) (id : Nat)
    (updates : ValidatedUpdate) : RouteResult :=
  match requireAuth user with
  | .status c e => .response c e
  | .next => controllerToResult (usersController.updateUser user id updates)

/-- src/routes/users.routes.js `router.delete('/:id', requireAuth,
requireRoles('admin'), deleteUser)`: auth guard, then the admin-only role
guard, then the controller. -/
def usersRoutes.deleteById (user : Option UserView) (id : Nat) : RouteResult :=
  match requireAuth user with
  | .status c e => .response c e
  | .next =>
    match requireRoles ["admin"] user with
    | .status c e => .response c e
    | .next => controllerToResult (usersController.deleteUser user id)

/-- C4: on the update route, a non-admin caller targeting another user's
id is denied 403; a payload carrying a role field from a non-admin caller
is denied 403 even when the caller targets their own id; an admin caller
proceeds in both situations (any target, any payload). -/
theorem update_self_or_admin_authz (caller : UserView) (id : Nat)
    (updates : ValidatedUpdate) :
    (caller.id ≠ id → caller.role ≠ "admin" →
      usersRoutes.putById (some caller) id updates =
        .response 403 "Not authorized to update this user") ∧
    (updates.role.isSome = true → caller.role ≠ "admin" →
      ∃ msg, usersRoutes.putById (some caller) id updates = .response 403 msg) ∧
    (caller.role = "admin" →
      usersRoutes.putById (some caller) id updates = .serviceCall) := by
  refine ⟨?_, ?_, ?_⟩
  · intro hid hrole
    simp [usersRoutes.putById, requireAuth, usersController.updateUser,
      controllerToResult, hid, hrole]
  · intro hsome hrole
    by_cases hid : caller.id = id
    · refine ⟨"Only admin users can change roles", ?_⟩
      simp [usersRoutes.putById, requireAuth, usersController.updateUser,
        controllerToResult, hid, hrole, hsome]
    · refine ⟨"Not authorized to update this user", ?_⟩
      simp [usersRoutes.putById, requireAuth, usersController.updateUser,
        controllerToResult, hid, hrole]
  · intro hrole
    simp [usersRoutes.putById, requireAuth, usersController.updateUser,
      controllerToResult, hrole]

/-- Witness for C4: caller 7 (role user) on target 9 is 403; caller 7
changing a role on their own record is 403; an admin doing either is
allowed through to the service. -/
theorem update_self_or_admin_authz_witness :
    usersRoutes.putById (some { id := 7, email := "a@b.c", role := "user" }) 9
        { name := none, email := none, role := none } =
      .response 403 "Not authorized to update this user" ∧
    (∃ msg, usersRoutes.putById (some { id := 7, email := "a@b.c", role := "user" }) 7
        { name := none, email := none, role := some .admin } = .response 403 msg) ∧
    usersRoutes.putById (some { id := 7, email := "a@b.c", role := "admin" }) 9
        { name := none, email := none, role := some .admin } = .serviceCall :=
  ⟨(update_self_or_admin_authz { id := 7, email := "a@b.c", role := "user" } 9
      { name := none, email := none, role := none }).1 (by decide) (by decide),
    (update_self_or_admin_authz { id := 7, email := "a@b.c", role := "user" } 7
      { name := none, email := none, role := some .admin }).2.1 (by decide) (by decide),
    (update_self_or_admin_authz { id := 7, email := "a@b.c", role := "admin" } 9
      { name := none, email := none, role := some .admin }).2.2 (by decide)⟩

/-- A non-admin user targeting their own record. -/
def nonAdminSelf : UserView := { id := 7, email := "u@v.w", role := "user" }

/-- C5 counterexample: a non-admin user deleting THEIR OWN record (caller
id 7, target id 7) is denied 403 'Forbidden: insufficient permissions' by
the route's `requireRoles('admin')` guard — the delete never reaches the
service, contradicting the claimed self-or-admin rule for delete. -/
theorem delete_self_denied_counterexample :
    usersRoutes.deleteById (some nonAdminSelf) 7 =
      .response 403 "Forbidden: insufficient permissions" ∧
    usersRoutes.deleteById (some nonAdminSelf) 7 ≠ .serviceCall :=
  ⟨by rfl, by decide⟩

/-- C5 amended: the delete route is admin-only. The `requireRoles('admin')`
guard denies every authenticated non-admin caller with 403 'Forbidden:
insufficient permissions' — including a user deleting their own record —
while an admin caller passes the guard and the controller's self-or-admin
check, so the delete proceeds for any target. -/
theorem delete_admin_only (caller : UserView) (id : Nat) :
    (caller.role = "admin" →
      usersRoutes.deleteById (some caller) id = .serviceCall) ∧
    (caller.role ≠ "admin" →
      usersRoutes.deleteById (some caller) id =
        .response 403 "Forbidden: insufficient permissions") := by
  constructor
  · intro hrole
    simp [usersRoutes.deleteById, requireAuth, requireRoles,
      usersController.deleteUser, controllerToResult, hrole]
  · intro hrole
    simp [usersRoutes.deleteById, requireAuth, requireRoles, hrole]

/-- Witness for the amended C5: an admin deleting user 7 reaches the
service; the non-admin owner of record 7 is denied 403. -/
theorem delete_admin_only_witness :
    usersRoutes.deleteById (some { id := 1, email := "r@s.t", role := "admin" }) 7 =
      .serviceCall ∧
    usersRoutes.deleteById (some { id := 7, email := "u@v.w", role := "user" }) 7 =
      .response 403 "Forbidden: insufficient permissions" :=
  ⟨(delete_admin_only { id := 1, email := "r@s.t", role := "admin" } 7).1 (by decide),
    (delete_admin_only { id := 7, email := "u@v.w", role := "user" } 7).2 (by decide)⟩

/-- A stored user row (per src/models/user.model.js as consumed by the
users service): includes the password hash and the creation/update
timestamps. -/
structure UserRecord where
  id : Nat
  email : String
  name : String
  password : String
  role : String
  created_at : Nat
  updated_at : Nat
deriving Repr, DecidableEq

/-- The password-free projection the users service returns
(`id, email, name, role, created_at, updated_at`). -/
structure UserPublic where
  id : Nat
  email : String
  name : String
  role : String
  created_at : Nat
  updated_at : Nat
deriving Repr, DecidableEq

/-- The service's `returning(...)` / selected-field projection. -/
def toPublic (u : UserRecord) : UserPublic :=
  { id := u.id, email := u.email, name := u.name, role := u.role,
    created_at := u.created_at, updated_at := u.updated_at }

/-- The row rewrite the service's `update ... set` performs on the target
row: the allowed fields present in the payload, plus `updated_at = now`. -/
def applyUpdates (updates : ValidatedUpdate) (now : Nat) (u : UserRecord) : UserRecord :=
  { u with
    name := updates.name.getD u.name,
    email := updates.email.getD u.email,
    role := (updates.role.map Role.toStr).getD u.role,
    updated_at := now }

/-- src/services/users.service.js `updateUser`: looks the row up by id
(error 'User not found' when absent); copies only the allowed fields
`name`, `email`, `role` that are present on the payload into
`updateData`; when `updateData` is empty it performs NO write and returns
the existing row's projection; otherwise it writes `updateData` plus a
fresh `updated_at` to the row with that id and returns the updated
projection. The state is the full table (list of rows). -/
def usersService.updateUser (db : List UserRecord) (id : Nat)
    (updates : ValidatedUpdate) (now : Nat) :
    Except String (List UserRecord × UserPublic) :=
  match db.find? (fun r => r.id == id) with
  | none => .error "User not found"
  | some existingUser =>
    if updates.name.isNone ∧ updates.email.isNone ∧ updates.role.isNone then
      .ok (db, toPublic existingUser)
    else
      .ok (db.map (fun r => if r.id = id then applyUpdates updates now r else r),
        toPublic (applyUpdates updates now existingUser))

/-- Row-wise frame relation for an update targeting `id`: a row keeps its
identity, password hash and creation time, and a row whose id is not the
target is byte-for-byte unchanged. -/
def frameRel (id : Nat) (w v : UserRecord) : Prop :=
  v.id = w.id ∧ v.password = w.password ∧ v.created_at = w.created_at ∧
    (w.id ≠ id → v = w)

/-- C10: updating an existing user can change only `name`, `email`,
`role` and `updated_at` — every row keeps its `id`, `password` and
`created_at`, and rows other than the target are completely unchanged;
and when the payload carries none of the three allowed fields, no write
occurs: the table is returned as it was and the existing row's projection
is returned unchanged. -/
theorem updateUser_frame (db : List UserRecord) (id : Nat)
    (updates : ValidatedUpdate) (now : Nat) (u : UserRecord)
    (hfind : db.find? (fun r => r.id == id) = some u) :
    ∃ db2 pub, usersService.updateUser db id updates now = .ok (db2, pub) ∧
      List.Forall₂ (frameRel id) db db2 ∧
      (updates.name = none → updates.email = none → updates.role = none →
        db2 = db ∧ pub = toPublic u) := by
  by_cases hempty : updates.name.isNone ∧ updates.email.isNone ∧ updates.role.isNone
  · refine ⟨db, toPublic u, ?_, ?_, fun _ _ _ => ⟨rfl, rfl⟩⟩
    · simp [usersService.updateUser, hfind, hempty]
    · exact List.forall₂_same.mpr fun x _ => ⟨rfl, rfl, rfl, fun _ => rfl⟩
  · refine ⟨db.map (fun r => if r.id = id then applyUpdates updates now r else r),
      toPublic (applyUpdates updates now u), ?_, ?_, ?_⟩
    · simp only [usersService.updateUser, hfind]
      rw [if_neg hempty]
    · refine List.forall₂_map_right_iff.mpr (List.forall₂_same.mpr fun x _ => ?_)
      by_cases hx : x.id = id
      · rw [if_pos hx]
        exact ⟨rfl, rfl, rfl, fun hne => absurd hx hne⟩
      · rw [if_neg hx]
        exact ⟨rfl, rfl, rfl, fun _ => rfl⟩
    · intro hn he hr
      exact absurd ⟨by simp [hn], by simp [he], by simp [hr]⟩ hempty

/-- A concrete stored row used by the C10 witness. -/
def row7 : UserRecord :=
  { id := 7, email := "x@y.z", name := "n", password := "hash", role := "user",
    created_at := 1, updated_at := 2 }

/-- The concrete rename payload used by the C10 witness. -/
def renamePayload : ValidatedUpdate := { name := some "m", email := none, role := none }

/-- Witness for C10: a one-row table and a payload renaming the user;
the service call succeeds and the frame holds. -/
theorem updateUser_frame_witness :
    [row7].find? (fun r => r.id == 7) = some row7 ∧
    ∃ db2 pub, usersService.updateUser [row7] 7 renamePayload 5 = .ok (db2, pub) ∧
      List.Forall₂ (frameRel 7) [row7] db2 ∧
      (renamePayload.name = none → renamePayload.email = none → renamePayload.role = none →
        db2 = [row7] ∧ pub = toPublic row7) :=
  ⟨by rfl, updateUser_frame [row7] 7 renamePayload 5 row7 (by rfl)⟩

/-- Cookie attribute set as built by src/utils/cookies.js: `httpOnly`,
`secure`, `sameSite` and `maxAge` (milliseconds, as in Express). -/
structure CookieOptions where
  httpOnly : Bool
  secure : Bool
  sameSite : String
  maxAgeMs : Nat
deriving Repr, DecidableEq

/-- src/utils/cookies.js `cookies.getOptions`: the fixed attribute set —
`httpOnly: true`, `secure: NODE_ENV === 'production'`,
`sameSite: 'strict'`, `maxAge: 15 * 60 * 1000` milliseconds. Its only
input is the environment name: no token and no expiry ever reaches it, so
the cookie lifetime cannot be derived from the token lifetime. -/
def cookies.getOptions (nodeEnv : String) : CookieOptions :=
  { httpOnly := true, secure := nodeEnv == "production",
    sameSite := "strict", maxAgeMs := 15 * 60 * 1000 }

/-- C7: the session cookie always carries `http_only = true`,
`same_site = strict`, `secure` exactly in production, and a 900-second
(`15 * 60 * 1000` ms) max-age, while a signed token expires at
`issued_at + 1 day`; the two lifetimes are decoupled — the max-age is the
same constant for every environment and differs from the token expiry. -/
theorem cookie_attributes_decoupled_from_token_expiry
    (nodeEnv : String) (payload : Claims) (issuedAt : Nat) :
    (cookies.getOptions nodeEnv).httpOnly = true ∧
    (cookies.getOptions nodeEnv).sameSite = "strict" ∧
    ((cookies.getOptions nodeEnv).secure = true ↔ nodeEnv = "production") ∧
    (cookies.getOptions nodeEnv).maxAgeMs = 900 * 1000 ∧
    (jwttoken.sign payload issuedAt).exp = issuedAt + JWT_EXPIRES_IN_SECONDS ∧
    JWT_EXPIRES_IN_SECONDS = 86400 ∧
    (cookies.getOptions nodeEnv).maxAgeMs ≠ JWT_EXPIRES_IN_SECONDS * 1000 := by
  refine ⟨rfl, rfl, ?_, rfl, rfl, rfl, ?_⟩
  · simp [cookies.getOptions]
  · simp [cookies.getOptions, JWT_EXPIRES_IN_SECONDS]

/-- A response's cookie state: the cookies set on it and the names it has
been told to clear. -/
structure Res where
  setCookieJar : List (String × String)
  cleared : List String
deriving Repr, DecidableEq

/-- src/utils/cookies.js `cookies.clear`: `res.clearCookie(name, opts)` —
the response stops carrying the named cookie and records the clearing. -/
def cookies.clear (res : Res) (nm : String) : Res :=
  { setCookieJar := res.setCookieJar.filter (fun p => p.1 ≠ nm),
    cleared := nm :: res.cleared }

/-- The value `import req from 'express/lib/request.js'` binds at module
scope in src/utils/cookies.js: the Express request PROTOTYPE object, not
a live request. It has no `cookies` own property (cookie-parser sets
`cookies` on each request instance), so its `cookies` member is
`undefined`. -/
def moduleReqCookies : Option (List (String × String)) := none

/-- src/utils/cookies.js `cookies.get`: `return req.cookies[name]` — it
ignores its `res` argument entirely and indexes into the module-level
`req.cookies`; since that member is `undefined`, the JS member access
throws a TypeError rather than producing the cookie value or absent. -/
def cookies.get (res : Res) (nm : String) : Except String (Option String) :=
  match moduleReqCookies with
  | none => .error "TypeError: cannot read properties of undefined"
  | some jar => .ok (jar.lookup nm)

/-- A concrete response carrying the session cookie. -/
def resWithToken : Res := { setCookieJar := [("token", "abc")], cleared := [] }

/-- C8 (code evaluated at the failing input): after `clear` of the
session cookie, `read` does NOT yield absent — `cookies.get` throws a
TypeError for every response and cookie name, because it reads
`req.cookies` off the module-level Express request prototype instead of
any request. -/
theorem clear_then_read_throws :
    cookies.get (cookies.clear resWithToken "token") "token" =
      .error "TypeError: cannot read properties of undefined" ∧
    ∀ (res : Res) (nm : String), cookies.get res nm ≠ .ok none := by
  refine ⟨rfl, ?_⟩
  intro r nm
  simp [cookies.get, moduleReqCookies]

/-- Admission decision reasons from the spec's data model. -/
inductive AdmissionReason where
  | none
  | bot
  | shield
  | rate_limit
deriving Repr, DecidableEq

/-- The spec's AdmissionDecision: allow flag plus reason. -/
structure AdmissionDecision where
  allow : Bool
  reason : AdmissionReason
deriving Repr, DecidableEq

/-- Modelled from the spec: the per-role rate-limit tier table of
`securityMiddleware` (src/middleware/security.middleware.js is not under
src; it is described by the embedded AGENTS.md and spec section 3):
admin 20/min, user 10/min, anything else — including absence of an
identity — the guest tier of 5/min. -/
def tierLimit (role : Option String) : Nat :=
  if role = some "admin" then 20
  else if role = some "user" then 10
  else 5

/-- Modelled from the spec: tier selection from the resolved identity
(`req.user?.role`), absence of identity meaning guest. -/
def tierForUser (u : Option UserView) : Nat :=
  tierLimit (u.map fun v => v.role)

/-- Per-key sliding-window counter state: when the current window opened
and how many requests it has seen. -/
structure WindowState where
  windowStart : Nat
  count : Nat
deriving Repr, DecidableEq

/-- Modelled from the spec: one sliding-window step (window length 1
minute). A missing counter opens a fresh window; a window whose elapsed
time exceeds its length resets lazily on access; the request increments
the count (a denied request still consumes its slot); the decision denies
with reason rate_limit exactly when the post-increment count exceeds the
tier's max. -/
def rateStep (maxCount : Nat) (now : Nat) (st : Option WindowState) :
    AdmissionDecision × WindowState :=
  let s0 : WindowState := match st with
    | Option.none => { windowStart := now, count := 0 }
    | Option.some s =>
      if now - s.windowStart > 60 then { windowStart := now, count := 0 } else s
  let s1 : WindowState := { windowStart := s0.windowStart, count := s0.count + 1 }
  (if s1.count ≤ maxCount then { allow := true, reason := .none }
   else { allow := false, reason := .rate_limit }, s1)

/-- Modelled from the spec: a sequence of requests from one key run
through the rate limiter, threading the counter state. -/
def runRequests (maxCount : Nat) (st : Option WindowState) :
    List Nat → List AdmissionDecision
  | [] => []
  | t :: ts =>
    let r := rateStep maxCount t st
    r.1 :: runRequests maxCount (some r.2) ts

/-- C6: from a single guest key with no prior state, any six requests
within one 1-minute window see the first five admitted and the sixth
denied with reason rate_limit; and the tier table is guest 5/min (also
when no identity is attached), user 10/min, admin 20/min. -/
theorem guest_rate_limit_five_per_minute (t1 t2 t3 t4 t5 t6 : Nat)
    (h2 : t2 ≤ t1 + 60) (h3 : t3 ≤ t1 + 60) (h4 : t4 ≤ t1 + 60)
    (h5 : t5 ≤ t1 + 60) (h6 : t6 ≤ t1 + 60) :
    runRequests (tierForUser Option.none) Option.none [t1, t2, t3, t4, t5, t6] =
      [{ allow := true, reason := .none }, { allow := true, reason := .none },
       { allow := true, reason := .none }, { allow := true, reason := .none },
       { allow := true, reason := .none }, { allow := false, reason := .rate_limit }] ∧
    tierForUser Option.none = 5 ∧
    (∀ u : UserView, u.role = "user" → tierForUser (some u) = 10) ∧
    (∀ u : UserView, u.role = "admin" → tierForUser (some u) = 20) := by
  have n2 : ¬ (t2 - t1 > 60) := by omega
  have n3 : ¬ (t3 - t1 > 60) := by omega
  have n4 : ¬ (t4 - t1 > 60) := by omega
  have n5 : ¬ (t5 - t1 > 60) := by omega
  have n6 : ¬ (t6 - t1 > 60) := by omega
  refine ⟨?_, by decide, ?_, ?_⟩
  · simp [runRequests, rateStep, tierForUser, tierLimit, n2, n3, n4, n5, n6]
  · intro u hrole
    simp [tierForUser, tierLimit, hrole]
  · intro u hrole
    simp [tierForUser, tierLimit, hrole]

/-- Witness for C6 at concrete timestamps 0, 10, 20, 30, 40, 50. -/
theorem guest_rate_limit_five_per_minute_witness :
    ((10 : Nat) ≤ 0 + 60 ∧ (20 : Nat) ≤ 0 + 60 ∧ (30 : Nat) ≤ 0 + 60 ∧
      (40 : Nat) ≤ 0 + 60 ∧ (50 : Nat) ≤ 0 + 60) ∧
    runRequests (tierForUser Option.none) Option.none [0, 10, 20, 30, 40, 50] =
      [{ allow := true, reason := .none }, { allow := true, reason := .none },
       { allow := true, reason := .none }, { allow := true, reason := .none },
       { allow := true, reason := .none }, { allow := false, reason := .rate_limit }] :=
  ⟨⟨by decide, by decide, by decide, by decide, by decide⟩,
    (guest_rate_limit_five_per_minute 0 10 20 30 40 50 (by decide) (by decide)
      (by decide) (by decide) (by decide)).1⟩
